import Mathlib

/-!
Verification of the motion-search interface of `mpgwrite/src/search.h`
(mpeg encoder).  The header declares the P/B search-algorithm constants,
the `COMPUTE_MOTION_BOUNDARY` and `VALID_MOTION` macros, and the
prototypes of the four P-frame block matchers and the algorithm
selectors.  The macros are embedded as pure functions over `Int`
(the C `int` arithmetic here never overflows for meaningful frame
sizes); the matcher bodies and selector bodies are not part of the
header and are modelled from the spec where a claim needs them.
-/

/-- Modelled from the spec: `DCTSIZE` is defined outside this header
(in the DCT constants); the spec derives the 16 by 16 motion block from
the DCT block size doubled, hence `DCTSIZE = 8`. -/
def DCTSIZE : Int := 8

/-- P-search algorithm constant from search.h. -/
def PSEARCH_SUBSAMPLE : Int := 0

/-- P-search algorithm constant from search.h. -/
def PSEARCH_EXHAUSTIVE : Int := 1

/-- P-search algorithm constant from search.h. -/
def PSEARCH_LOGARITHMIC : Int := 2

/-- P-search algorithm constant from search.h. -/
def PSEARCH_TWOLEVEL : Int := 3

/-- B-search algorithm constant from search.h. -/
def BSEARCH_EXHAUSTIVE : Int := 0

/-- B-search algorithm constant from search.h. -/
def BSEARCH_CROSS2 : Int := 1

/-- B-search algorithm constant from search.h. -/
def BSEARCH_SIMPLE : Int := 2

/-- The four motion-vector bounds produced by `COMPUTE_MOTION_BOUNDARY`
(in the C macro these are four out-variables). -/
structure MotionBounds where
  leftMY : Int
  leftMX : Int
  rightMY : Int
  rightMX : Int
  deriving DecidableEq

/-- Embedding of the `COMPUTE_MOTION_BOUNDARY(by,bx,stepSize,...)` macro
from search.h (the C parameters `by`, `bx` are renamed `bY`, `bX`;
the globals `Fsize_y`, `Fsize_x` are passed explicitly):
`leftMY = -2*DCTSIZE*by`, `leftMX = -2*DCTSIZE*bx`,
`rightMY = 2*(Fsize_y - (by+2)*DCTSIZE + 1) - 1`,
`rightMX = 2*(Fsize_x - (bx+2)*DCTSIZE + 1) - 1`,
then `rightMY++; rightMX++` when `stepSize == 2`. -/
def COMPUTE_MOTION_BOUNDARY (bY bX stepSize Fsize_y Fsize_x : Int) :
    MotionBounds :=
  let leftMY := -2 * DCTSIZE * bY
  let leftMX := -2 * DCTSIZE * bX
  let rightMY := 2 * (Fsize_y - (bY + 2) * DCTSIZE + 1) - 1
  let rightMX := 2 * (Fsize_x - (bX + 2) * DCTSIZE + 1) - 1
  if stepSize = 2 then
    { leftMY := leftMY, leftMX := leftMX,
      rightMY := rightMY + 1, rightMX := rightMX + 1 }
  else
    { leftMY := leftMY, leftMX := leftMX,
      rightMY := rightMY, rightMX := rightMX }

/-- Embedding of the `VALID_MOTION(y,x)` macro from search.h:
`(y >= leftMY) && (y < rightMY) && (x >= leftMX) && (x < rightMX)`. -/
def VALID_MOTION (b : MotionBounds) (y x : Int) : Bool :=
  decide (y ≥ b.leftMY) && decide (y < b.rightMY) &&
  decide (x ≥ b.leftMX) && decide (x < b.rightMX)

/-- Modelled from the spec: applying a half-pel motion vector `(y, x)`
to the `2*DCTSIZE` square block at block position `(bY, bX)` (the
matcher bodies applying vectors are not in the header).  The full-pel
reference patch starts at row `bY*DCTSIZE + y/2` (floor division) and
column `bX*DCTSIZE + x/2`, spans `2*DCTSIZE` rows and columns, and
needs one extra row (column) of samples for half-sample interpolation
when `y` (`x`) is odd.  Holds when every needed sample lies inside the
reference frame of `Fsize_y` rows and `Fsize_x` columns. -/
def refPatchInFrame (bY bX y x Fsize_y Fsize_x : Int) : Bool :=
  let top := bY * DCTSIZE + y / 2
  let left := bX * DCTSIZE + x / 2
  let extraY : Int := if y % 2 = 0 then 0 else 1
  let extraX : Int := if x % 2 = 0 then 0 else 1
  decide (0 ≤ top) && decide (top + 2 * DCTSIZE - 1 + extraY < Fsize_y) &&
  decide (0 ≤ left) && decide (left + 2 * DCTSIZE - 1 + extraX < Fsize_x)

/-- Helper: `VALID_MOTION` unfolded to the four range conditions. -/
lemma valid_motion_eq_true_iff (b : MotionBounds) (y x : Int) :
    VALID_MOTION b y x = true ↔
      b.leftMY ≤ y ∧ y < b.rightMY ∧ b.leftMX ≤ x ∧ x < b.rightMX := by
  simp [VALID_MOTION, and_assoc, ge_iff_le]

/-- Helper: the four fields of `COMPUTE_MOTION_BOUNDARY` in closed form. -/
lemma cmb_fields (bY bX s Fy Fx : Int) :
    (COMPUTE_MOTION_BOUNDARY bY bX s Fy Fx).leftMY = -2 * DCTSIZE * bY ∧
    (COMPUTE_MOTION_BOUNDARY bY bX s Fy Fx).leftMX = -2 * DCTSIZE * bX ∧
    (COMPUTE_MOTION_BOUNDARY bY bX s Fy Fx).rightMY =
      2 * (Fy - (bY + 2) * DCTSIZE + 1) - 1 + (if s = 2 then 1 else 0) ∧
    (COMPUTE_MOTION_BOUNDARY bY bX s Fy Fx).rightMX =
      2 * (Fx - (bX + 2) * DCTSIZE + 1) - 1 + (if s = 2 then 1 else 0) := by
  unfold COMPUTE_MOTION_BOUNDARY
  split <;> rename_i h <;> simp [h]

/-- C1: for a block at `(bY, bX)` with the `2*DCTSIZE` square inside the
frame, every half-pel motion vector accepted by `VALID_MOTION` under the
bounds of `COMPUTE_MOTION_BOUNDARY` (with only even components as
candidates when `stepSize = 2`) references only samples inside the
`Fsize_y` by `Fsize_x` reference frame, the extra interpolation
row/column for odd components included. -/
theorem valid_motion_in_frame
    (bY bX stepSize Fsize_y Fsize_x y x : Int)
    (hbY : 0 ≤ bY) (hbX : 0 ≤ bX)
    (hstep : stepSize = 1 ∨ stepSize = 2)
    (hFy : (bY + 2) * DCTSIZE ≤ Fsize_y)
    (hFx : (bX + 2) * DCTSIZE ≤ Fsize_x)
    (hfull : stepSize = 2 → y % 2 = 0 ∧ x % 2 = 0)
    (hvalid : VALID_MOTION (COMPUTE_MOTION_BOUNDARY bY bX stepSize Fsize_y Fsize_x)
        y x = true) :
    refPatchInFrame bY bX y x Fsize_y Fsize_x = true := by
  have hD : DCTSIZE = 8 := rfl
  rw [hD] at hFy hFx
  rcases hstep with hs | hs <;> subst hs
  · simp [VALID_MOTION, COMPUTE_MOTION_BOUNDARY, refPatchInFrame, hD]
      at hvalid ⊢
    split <;> split <;> omega
  · obtain ⟨hy0, hx0⟩ := hfull rfl
    simp [VALID_MOTION, COMPUTE_MOTION_BOUNDARY, refPatchInFrame, hD]
      at hvalid ⊢
    split <;> split <;> omega

/-- C2 counterexample: at block `(0, 0)` in a 32 by 32 frame the right
bounds under `stepSize = 2` are one unit LARGER than under
`stepSize = 1`, hence not tighter. -/
theorem right_bounds_step2_not_tighter_cex :
    (COMPUTE_MOTION_BOUNDARY 0 0 2 32 32).rightMY = 34 ∧
    (COMPUTE_MOTION_BOUNDARY 0 0 1 32 32).rightMY = 33 ∧
    ¬ ((COMPUTE_MOTION_BOUNDARY 0 0 2 32 32).rightMY <
       (COMPUTE_MOTION_BOUNDARY 0 0 1 32 32).rightMY) ∧
    ¬ ((COMPUTE_MOTION_BOUNDARY 0 0 2 32 32).rightMX <
       (COMPUTE_MOTION_BOUNDARY 0 0 1 32 32).rightMX) := by decide

/-- C2 (amended): for every block position and frame size, the right
bounds computed by `COMPUTE_MOTION_BOUNDARY` are one unit LOOSER (one
larger) under the coarse `stepSize = 2` than under `stepSize = 1`;
equivalently, they are one unit tighter under the half-pel
`stepSize = 1` step. -/
theorem right_bounds_one_looser_at_step2 (bY bX Fy Fx : Int) :
    (COMPUTE_MOTION_BOUNDARY bY bX 2 Fy Fx).rightMY =
      (COMPUTE_MOTION_BOUNDARY bY bX 1 Fy Fx).rightMY + 1 ∧
    (COMPUTE_MOTION_BOUNDARY bY bX 2 Fy Fx).rightMX =
      (COMPUTE_MOTION_BOUNDARY bY bX 1 Fy Fx).rightMX + 1 := by
  simp [COMPUTE_MOTION_BOUNDARY]

/-- C3: `VALID_MOTION b y x` holds exactly when both components lie in
their half-open ranges `[left, right)`. -/
theorem valid_motion_iff_in_ranges (b : MotionBounds) (y x : Int) :
    VALID_MOTION b y x = true ↔
      (b.leftMY ≤ y ∧ y < b.rightMY) ∧ (b.leftMX ≤ x ∧ x < b.rightMX) :=
  by rw [valid_motion_eq_true_iff]; tauto

/-- C4: the left bounds of `COMPUTE_MOTION_BOUNDARY` are
`-2*DCTSIZE*bY` and `-2*DCTSIZE*bX`, functions of the block position
only, independent of step size and frame dimensions. -/
theorem left_bounds_depend_only_on_block (bY bX s s2 Fy Fx Fy2 Fx2 : Int) :
    (COMPUTE_MOTION_BOUNDARY bY bX s Fy Fx).leftMY = -2 * DCTSIZE * bY ∧
    (COMPUTE_MOTION_BOUNDARY bY bX s Fy Fx).leftMX = -2 * DCTSIZE * bX ∧
    (COMPUTE_MOTION_BOUNDARY bY bX s Fy Fx).leftMY =
      (COMPUTE_MOTION_BOUNDARY bY bX s2 Fy2 Fx2).leftMY ∧
    (COMPUTE_MOTION_BOUNDARY bY bX s Fy Fx).leftMX =
      (COMPUTE_MOTION_BOUNDARY bY bX s2 Fy2 Fx2).leftMX := by
  obtain ⟨h1, h2, -, -⟩ := cmb_fields bY bX s Fy Fx
  obtain ⟨h3, h4, -, -⟩ := cmb_fields bY bX s2 Fy2 Fx2
  exact ⟨h1, h2, by rw [h1, h3], by rw [h2, h4]⟩

/-- C9: the left bounds agree, the right bounds are each one larger
under `stepSize = 2`, and hence every vector valid under the
`stepSize = 1` bounds is also valid under the `stepSize = 2` bounds. -/
theorem step2_valid_set_contains_step1 (bY bX Fy Fx y x : Int)
    (h : VALID_MOTION (COMPUTE_MOTION_BOUNDARY bY bX 1 Fy Fx) y x = true) :
    (COMPUTE_MOTION_BOUNDARY bY bX 2 Fy Fx).leftMY =
      (COMPUTE_MOTION_BOUNDARY bY bX 1 Fy Fx).leftMY ∧
    (COMPUTE_MOTION_BOUNDARY bY bX 2 Fy Fx).leftMX =
      (COMPUTE_MOTION_BOUNDARY bY bX 1 Fy Fx).leftMX ∧
    (COMPUTE_MOTION_BOUNDARY bY bX 2 Fy Fx).rightMY =
      (COMPUTE_MOTION_BOUNDARY bY bX 1 Fy Fx).rightMY + 1 ∧
    (COMPUTE_MOTION_BOUNDARY bY bX 2 Fy Fx).rightMX =
      (COMPUTE_MOTION_BOUNDARY bY bX 1 Fy Fx).rightMX + 1 ∧
    VALID_MOTION (COMPUTE_MOTION_BOUNDARY bY bX 2 Fy Fx) y x = true := by
  simp [VALID_MOTION, COMPUTE_MOTION_BOUNDARY] at h ⊢
  omega

/-- Witness for C9 at block `(0, 0)`, frame 32 by 32, vector `(0, 0)`. -/
theorem step2_valid_set_contains_step1_witness :
    VALID_MOTION (COMPUTE_MOTION_BOUNDARY 0 0 2 32 32) 0 0 = true :=
  (step2_valid_set_contains_step1 0 0 32 32 0 0 (by decide)).2.2.2.2

/-- C10: whenever the block lies inside the frame, the zero motion
vector is accepted by `VALID_MOTION` for both step sizes, so the search
range is never empty. -/
theorem zero_vector_always_valid (bY bX stepSize Fy Fx : Int)
    (hbY : 0 ≤ bY) (hbX : 0 ≤ bX)
    (hstep : stepSize = 1 ∨ stepSize = 2)
    (hFy : (bY + 2) * DCTSIZE ≤ Fy) (hFx : (bX + 2) * DCTSIZE ≤ Fx) :
    VALID_MOTION (COMPUTE_MOTION_BOUNDARY bY bX stepSize Fy Fx) 0 0 = true := by
  have hD : DCTSIZE = 8 := rfl
  rw [hD] at hFy hFx
  rcases hstep with h | h <;> subst h <;>
    simp [VALID_MOTION, COMPUTE_MOTION_BOUNDARY, hD] <;> omega

/-- Witness for C10 at block `(0, 0)` in a 16 by 16 frame with
`stepSize = 1`. -/
theorem zero_vector_always_valid_witness :
    VALID_MOTION (COMPUTE_MOTION_BOUNDARY 0 0 1 16 16) 0 0 = true :=
  zero_vector_always_valid 0 0 1 16 16 (by decide) (by decide) (Or.inl rfl)
    (by decide) (by decide)

/-- Witness for C1 at block `(0, 0)`, `stepSize = 1`, frame 32 by 32,
half-pel vector `(1, 1)`. -/
theorem valid_motion_in_frame_witness :
    refPatchInFrame 0 0 1 1 32 32 = true :=
  valid_motion_in_frame 0 0 1 32 32 1 1 (by decide) (by decide) (Or.inl rfl)
    (by decide) (by decide) (by decide) (by decide)

/-- The C types appearing in the search.h prototypes. -/
inductive CType where
  | cInt
  | cInt32
  | cIntPtr
  | cCharPtr
  | cLumBlock
  | cMpegFramePtr
  | cVoid
  deriving DecidableEq

/-- A declared C function prototype: name, return type, and the
parameter list in declaration order. -/
structure Prototype where
  name : String
  ret : CType
  params : List (String × CType)
  deriving DecidableEq

/-- Prototype of `PLogarithmicSearch`, transcribed from search.h. -/
def PLogarithmicSearch_proto : Prototype :=
  { name := "PLogarithmicSearch", ret := CType.cInt32,
    params := [("currentBlock", CType.cLumBlock),
               ("prev", CType.cMpegFramePtr),
               ("by", CType.cInt), ("bx", CType.cInt),
               ("motionY", CType.cIntPtr), ("motionX", CType.cIntPtr)] }

/-- Prototype of `PSubSampleSearch`, transcribed from search.h. -/
def PSubSampleSearch_proto : Prototype :=
  { name := "PSubSampleSearch", ret := CType.cInt32,
    params := [("currentBlock", CType.cLumBlock),
               ("prev", CType.cMpegFramePtr),
               ("by", CType.cInt), ("bx", CType.cInt),
               ("motionY", CType.cIntPtr), ("motionX", CType.cIntPtr)] }

/-- Prototype of `PLocalSearch`, transcribed from search.h. -/
def PLocalSearch_proto : Prototype :=
  { name := "PLocalSearch", ret := CType.cInt32,
    params := [("currentBlock", CType.cLumBlock),
               ("prev", CType.cMpegFramePtr),
               ("by", CType.cInt), ("bx", CType.cInt),
               ("motionY", CType.cIntPtr), ("motionX", CType.cIntPtr),
               ("bestSoFar", CType.cInt32)] }

/-- Prototype of `PTwoLevelSearch`, transcribed from search.h. -/
def PTwoLevelSearch_proto : Prototype :=
  { name := "PTwoLevelSearch", ret := CType.cInt32,
    params := [("currentBlock", CType.cLumBlock),
               ("prev", CType.cMpegFramePtr),
               ("by", CType.cInt), ("bx", CType.cInt),
               ("motionY", CType.cIntPtr), ("motionX", CType.cIntPtr),
               ("bestSoFar", CType.cInt32)] }

/-- The four declared P-frame search prototypes, in header order. -/
def PSearchPrototypes : List Prototype :=
  [PLogarithmicSearch_proto, PSubSampleSearch_proto,
   PLocalSearch_proto, PTwoLevelSearch_proto]

/-- Whether a prototype takes a previous-best cost parameter
`bestSoFar` of type int32. -/
def hasBestSoFar (p : Prototype) : Bool :=
  p.params.any (fun q => q.1 == "bestSoFar" && q.2 == CType.cInt32)

/-- C5: of the four declared P-frame search prototypes, exactly
`PLocalSearch` and `PTwoLevelSearch` take a `bestSoFar` cost; all four
take block coordinates `by`, `bx` as plain ints, produce the motion
vector through the two `int *` out-parameters `motionY`, `motionX`,
and return an int32 match cost. -/
theorem search_prototypes_shape :
    (PSearchPrototypes.filter (fun p => hasBestSoFar p)).map
        (fun p => p.name) = ["PLocalSearch", "PTwoLevelSearch"] ∧
    ∀ p ∈ PSearchPrototypes,
      p.ret = CType.cInt32 ∧
      ("by", CType.cInt) ∈ p.params ∧ ("bx", CType.cInt) ∈ p.params ∧
      ("motionY", CType.cIntPtr) ∈ p.params ∧
      ("motionX", CType.cIntPtr) ∈ p.params := by decide

/-- Modelled from the spec: one candidate-evaluation step of a block
matcher (the matcher bodies are not in the header).  A candidate
vector is accepted only when it satisfies `VALID_MOTION` and improves
on the best cost so far; otherwise the running best is kept. -/
def searchStep (b : MotionBounds) (cost : Int → Int → Int)
    (best : (Int × Int) × Int) (c : Int × Int) : (Int × Int) × Int :=
  if VALID_MOTION b c.1 c.2 && decide (cost c.1 c.2 < best.2)
  then (c, cost c.1 c.2) else best

/-- Modelled from the spec: generic clamped block matcher.  Starting
from the zero vector, it folds `searchStep` over the variant's
candidate-vector sequence and returns the best motion vector found
together with its match cost. -/
def searchBest (b : MotionBounds) (cost : Int → Int → Int)
    (cands : List (Int × Int)) : (Int × Int) × Int :=
  cands.foldl (searchStep b cost) ((0, 0), cost 0 0)

/-- Modelled from the spec: `PLogarithmicSearch`.  Its coarse-to-fine
candidate pattern is an open question in the spec, so the candidate
sequence is a parameter; clamping to the valid range is mandatory. -/
def PLogarithmicSearch (cands : List (Int × Int)) (b : MotionBounds)
    (cost : Int → Int → Int) : (Int × Int) × Int :=
  searchBest b cost cands

/-- Modelled from the spec: `PSubSampleSearch`.  The spatial
subsampling is part of the cost metric, which is a parameter. -/
def PSubSampleSearch (cands : List (Int × Int)) (b : MotionBounds)
    (cost : Int → Int → Int) : (Int × Int) × Int :=
  searchBest b cost cands

/-- Modelled from the spec: `PLocalSearch`.  The spec describes
`bestSoFar` as a pruning threshold enabling early termination only, so
it does not change which candidates may be returned; the parameter is
kept but does not affect the fold. -/
def PLocalSearch (cands : List (Int × Int)) (b : MotionBounds)
    (cost : Int → Int → Int) (bestSoFar : Int) : (Int × Int) × Int :=
  searchBest b cost cands

/-- Modelled from the spec: `PTwoLevelSearch`, with `bestSoFar` as in
`PLocalSearch` and the two-level candidate pattern left open. -/
def PTwoLevelSearch (cands : List (Int × Int)) (b : MotionBounds)
    (cost : Int → Int → Int) (bestSoFar : Int) : (Int × Int) × Int :=
  searchBest b cost cands

/-- Helper: `searchStep` preserves validity of the running best. -/
lemma searchStep_valid (b : MotionBounds) (cost : Int → Int → Int)
    (best : (Int × Int) × Int) (c : Int × Int)
    (h : VALID_MOTION b best.1.1 best.1.2 = true) :
    VALID_MOTION b (searchStep b cost best c).1.1
      (searchStep b cost best c).1.2 = true := by
  unfold searchStep
  split
  · rename_i hc
    simp only [Bool.and_eq_true] at hc
    exact hc.1
  · exact h

/-- Helper: the fold over candidates preserves validity. -/
lemma foldl_searchStep_valid (b : MotionBounds) (cost : Int → Int → Int)
    (l : List (Int × Int)) :
    ∀ acc : (Int × Int) × Int, VALID_MOTION b acc.1.1 acc.1.2 = true →
      VALID_MOTION b (l.foldl (searchStep b cost) acc).1.1
        (l.foldl (searchStep b cost) acc).1.2 = true := by
  induction l with
  | nil => intro acc h; exact h
  | cons c tl ih =>
      intro acc h
      simp only [List.foldl_cons]
      exact ih _ (searchStep_valid b cost acc c h)

/-- Helper: the generic clamped matcher returns a valid vector
whenever the zero start vector is valid. -/
lemma searchBest_valid (b : MotionBounds) (cost : Int → Int → Int)
    (cands : List (Int × Int)) (h0 : VALID_MOTION b 0 0 = true) :
    VALID_MOTION b (searchBest b cost cands).1.1
      (searchBest b cost cands).1.2 = true :=
  foldl_searchStep_valid b cost cands ((0, 0), cost 0 0) h0

/-- C6: every search variant, whatever its candidate sequence, cost
metric and pruning threshold, returns a motion vector satisfying
`VALID_MOTION` under its block's bounds, provided the zero start
vector is valid (which `COMPUTE_MOTION_BOUNDARY` guarantees for blocks
inside the frame). -/
theorem search_variants_return_valid_motion
    (candsL candsS candsP candsT : List (Int × Int)) (b : MotionBounds)
    (cost : Int → Int → Int) (bestSoFar : Int)
    (h0 : VALID_MOTION b 0 0 = true) :
    VALID_MOTION b (PLogarithmicSearch candsL b cost).1.1
      (PLogarithmicSearch candsL b cost).1.2 = true ∧
    VALID_MOTION b (PSubSampleSearch candsS b cost).1.1
      (PSubSampleSearch candsS b cost).1.2 = true ∧
    VALID_MOTION b (PLocalSearch candsP b cost bestSoFar).1.1
      (PLocalSearch candsP b cost bestSoFar).1.2 = true ∧
    VALID_MOTION b (PTwoLevelSearch candsT b cost bestSoFar).1.1
      (PTwoLevelSearch candsT b cost bestSoFar).1.2 = true :=
  ⟨searchBest_valid b cost candsL h0, searchBest_valid b cost candsS h0,
   searchBest_valid b cost candsP h0, searchBest_valid b cost candsT h0⟩

/-- Witness for C6: block `(0, 0)` in a 32 by 32 frame, `stepSize = 1`
bounds, a candidate list with in-range and out-of-range vectors, a
concrete cost, `bestSoFar = 100`. -/
theorem search_variants_return_valid_motion_witness :
    VALID_MOTION (COMPUTE_MOTION_BOUNDARY 0 0 1 32 32)
      (PTwoLevelSearch [(40, 40), (2, 2)]
        (COMPUTE_MOTION_BOUNDARY 0 0 1 32 32)
        (fun y x => y * y + x * x) 100).1.1
      (PTwoLevelSearch [(40, 40), (2, 2)]
        (COMPUTE_MOTION_BOUNDARY 0 0 1 32 32)
        (fun y x => y * y + x * x) 100).1.2 = true :=
  (search_variants_return_valid_motion [] [] [] [(40, 40), (2, 2)]
    (COMPUTE_MOTION_BOUNDARY 0 0 1 32 32)
    (fun y x => y * y + x * x) 100 (by decide)).2.2.2

/-- Modelled from the spec: `SetPSearchAlg` maps a recognized textual
algorithm name to the corresponding P-search mode constant and reports
an explicit error naming the offending string on an unrecognized name
(the body is not in the header; spec sections 4.1 and 7). -/
def SetPSearchAlg (alg : String) : Except String Int :=
  if alg = "subsample" then Except.ok PSEARCH_SUBSAMPLE
  else if alg = "exhaustive" then Except.ok PSEARCH_EXHAUSTIVE
  else if alg = "logarithmic" then Except.ok PSEARCH_LOGARITHMIC
  else if alg = "twolevel" then Except.ok PSEARCH_TWOLEVEL
  else Except.error ("ERROR: invalid psearch algorithm: " ++ alg)

/-- Modelled from the spec: `SetBSearchAlg`, the B-search analogue of
`SetPSearchAlg` (the body is not in the header). -/
def SetBSearchAlg (alg : String) : Except String Int :=
  if alg = "exhaustive" then Except.ok BSEARCH_EXHAUSTIVE
  else if alg = "cross2" then Except.ok BSEARCH_CROSS2
  else if alg = "simple" then Except.ok BSEARCH_SIMPLE
  else Except.error ("ERROR: invalid bsearch algorithm: " ++ alg)

/-- Modelled from the spec: `PSearchName` returns the human-readable
name of the currently active P-search mode `psearchAlg` (the body is
not in the header; pure query). -/
def PSearchName (psearchAlg : Int) : String :=
  if psearchAlg = PSEARCH_SUBSAMPLE then "subsample"
  else if psearchAlg = PSEARCH_EXHAUSTIVE then "exhaustive"
  else if psearchAlg = PSEARCH_LOGARITHMIC then "logarithmic"
  else "twolevel"

/-- C7: `SetPSearchAlg "logarithmic"` selects the mode whose constant
is `PSEARCH_LOGARITHMIC`, and `PSearchName` on that mode returns the
name identifying the logarithmic mode. -/
theorem set_logarithmic_then_name :
    SetPSearchAlg "logarithmic" = Except.ok PSEARCH_LOGARITHMIC ∧
    PSearchName PSEARCH_LOGARITHMIC = "logarithmic" := by
  constructor <;> rfl

/-- C8: on every name that is not a recognized algorithm name,
`SetPSearchAlg` and `SetBSearchAlg` produce an explicit error carrying
the offending name, never an `ok` mode. -/
theorem unrecognized_alg_is_error (alg : String)
    (hp : alg ≠ "subsample" ∧ alg ≠ "exhaustive" ∧
      alg ≠ "logarithmic" ∧ alg ≠ "twolevel")
    (hb : alg ≠ "exhaustive" ∧ alg ≠ "cross2" ∧ alg ≠ "simple") :
    SetPSearchAlg alg =
      Except.error ("ERROR: invalid psearch algorithm: " ++ alg) ∧
    SetBSearchAlg alg =
      Except.error ("ERROR: invalid bsearch algorithm: " ++ alg) := by
  obtain ⟨h1, h2, h3, h4⟩ := hp
  obtain ⟨h5, h6, h7⟩ := hb
  unfold SetPSearchAlg SetBSearchAlg
  rw [if_neg h1, if_neg h2, if_neg h3, if_neg h4,
    if_neg h5, if_neg h6, if_neg h7]
  exact ⟨rfl, rfl⟩

/-- Witness for C8 at the unrecognized name "fastest". -/
theorem unrecognized_alg_is_error_witness :
    SetPSearchAlg "fastest" =
      Except.error ("ERROR: invalid psearch algorithm: " ++ "fastest") ∧
    SetBSearchAlg "fastest" =
      Except.error ("ERROR: invalid bsearch algorithm: " ++ "fastest") :=
  unrecognized_alg_is_error "fastest"
    ⟨by decide, by decide, by decide, by decide⟩
    ⟨by decide, by decide, by decide⟩
